import Mathlib

/-!
Verification of the `ibm_kms_key_rings` resource of the IBM Cloud
terraform provider, shallowly embedding the file
`ibm/service/kms/resource_ibm_kms_key_rings.go`.

Go strings are modelled as lists of characters, and the pieces of the Go
standard library the code uses (`strings.Split`, `strings.Contains` for a
non-empty separator) are defined below with Go semantics.  The remote
collaborators (resource controller, key protect client, raw HTTP client,
session provider) are modelled as an explicit `Backend` record of response
functions, and each operation additionally returns the ordered trace of
remote calls it issued.  Go runtime panics (index out of range, nil
pointer dereference, failed interface conversion) are modelled explicitly
as a `panic` outcome, distinct from a returned `error`.
-/

abbrev GoStr := List Char

/-- Convert a string literal to its character-list model. -/
def gs (s : String) : GoStr := s.toList

/-- Fuelled worker for `splitGo`; the fuel is only there to make the
recursion structural, and `splitGoF_fuel` below shows any fuel of at
least the length of the string gives the same result. -/
def splitGoF (h : Char) (t : List Char) : Nat → List Char → List (List Char)
  | _, [] => [[]]
  | 0, s => [s]
  | n + 1, c :: rest =>
    if (h :: t).isPrefixOf (c :: rest) then
      [] :: splitGoF h t n (rest.drop t.length)
    else
      match splitGoF h t n rest with
      | [] => [[c]]
      | r :: rs => (c :: r) :: rs

/-- Go `strings.Split s sep` for the non-empty separator `sep = h :: t`:
splits around every leftmost, non-overlapping occurrence of the
separator, so the result always has one more element than the number of
occurrences (and `Split "" sep = [""]`). -/
def splitGo (h : Char) (t : List Char) (s : List Char) : List (List Char) :=
  splitGoF h t s.length s

/-- Go `strings.Contains s sub` for the non-empty substring `sub = h :: t`:
true exactly when the split produces at least two parts. -/
def containsGo (h : Char) (t : List Char) (s : List Char) : Bool :=
  decide (2 ≤ (splitGo h t s).length)

/-- Tail of the composite-identifier separator `":keyRing:"`. -/
def krTail : GoStr := gs "keyRing:"

/-- The composite-identifier separator `":keyRing:"` (line 145 / 155 / 208). -/
def krSep : GoStr := ':' :: krTail

/-- The character class of the `key_ring_id` validator regex
`^[a-zA-Z0-9-]*$` (line 64). -/
def isKeyRingChar (c : Char) : Bool := c.isAlpha || c.isDigit || c == '-'

/-- The `key_ring_id` validation of `ResourceIBMKeyRingValidator`
(lines 58-66): characters from `[a-zA-Z0-9-]`, length between 2 and 100. -/
def validKeyRingID (s : GoStr) : Bool :=
  s.all isKeyRingChar && decide (2 ≤ s.length) && decide (s.length ≤ 100)

/-- The status-carrying error type `*kp.Error` of the key protect client. -/
structure KpError where
  statusCode : Nat
deriving DecidableEq

/-- A Go `error` value as observed by the type assertion `err.(*kp.Error)`:
either its dynamic type is `*kp.Error`, or it is an error of any other
dynamic type. -/
inductive GoError where
  | kp (e : KpError)
  | generic (msg : GoStr)
deriving DecidableEq

/-- Instance metadata extensions; the controller never inspects them, it
only hands them to the endpoint resolver. -/
abbrev Extensions := List (GoStr × GoStr)

/-- `rc.ResourceInstance`: the `CRN` field is a string pointer, so it may
be nil (`none`). -/
structure InstanceData where
  crn : Option GoStr
  extensions : Extensions
deriving DecidableEq

/-- The `schema.ResourceData` fields this resource reads and writes. -/
structure ResourceData where
  id : GoStr
  instance_id : GoStr
  key_ring_id : GoStr
  endpoint_type : GoStr
deriving DecidableEq

/-- One remote request issued by an operation. -/
inductive RemoteCall where
  | getResourceInstance (instID : GoStr)
  | rawPost (url : GoStr)
  | createKeyRing (ringID : GoStr)
  | getKeyRings
  | deleteKeyRing (ringID : GoStr)
deriving DecidableEq

/-- Outcome of one operation: normal return with nil error (with the
updated resource data), a returned non-nil error, or a Go runtime panic. -/
inductive OpResult where
  | ok (d : ResourceData)
  | err (d : ResourceData) (msg : GoStr)
  | panic (msg : GoStr)
deriving DecidableEq

/-- Go panic message for an out-of-range slice index. -/
def panicIndexMsg : GoStr := gs "runtime error: index out of range"

/-- Go panic message for a nil pointer dereference. -/
def panicNilMsg : GoStr :=
  gs "runtime error: invalid memory address or nil pointer dereference"

/-- Go panic message for a failed interface conversion to `*kp.Error`. -/
def panicCastMsg : GoStr := gs "interface conversion: error is not *kp.Error"

/-- The environment of remote collaborators and session providers seen by
one operation.  `KmsEndpointURL` lives elsewhere in the `kms` package
(outside the embedded file), so it is abstracted as an environment
function from the requested endpoint type and the instance extensions to
either a URL or an error. -/
structure Backend where
  keyManagementAPIErr : Option GoStr
  kpBaseURL : GoStr
  resourceControllerErr : Option GoStr
  getResourceInstance : GoStr → Option InstanceData × GoStr × Option GoError
  kmsEndpointURL : GoStr → Extensions → Except GoStr GoStr
  newRequestErr : GoStr → Option GoStr
  bluemixToken : Except GoStr GoStr
  doRequest : GoStr → Option GoStr
  createKeyRing : GoStr → GoStr → GoStr → Option GoError
  getKeyRings : GoStr → GoStr → Except GoError (List GoStr)
  deleteKeyRing : GoStr → GoStr → GoStr → Option GoError

/-- Lines 79-82 of Create: split the configured instance reference on
`":"`; when it has more than 3 segments take the segment at index
`length - 3`, otherwise keep it unchanged. -/
def crnShorten (instanceID : GoStr) : GoStr :=
  let parts := splitGo ':' [] instanceID
  if 3 < parts.length then parts.getD (parts.length - 3) [] else instanceID

/-- The search loop of Create (lines 138-143): first listed ring id equal
to the requested one, or the empty string when none matches. -/
def findRing (rings : List GoStr) (keyRingID : GoStr) : GoStr :=
  match rings with
  | [] => []
  | r :: rs => if r = keyRingID then r else findRing rs keyRingID

/-- The encoding of the composite external identifier
(`d.SetId(fmt.Sprintf("%s:keyRing:%s", keyRing, *instanceCRN))`,
line 145). -/
def encodeExternalId (keyRing crn : GoStr) : GoStr := keyRing ++ krSep ++ crn

/-- The decoding performed by Read (lines 155-159): split the stored id on
`":keyRing:"`, fail when fewer than two parts result, and otherwise
return the first part (key ring id) and the second part (instance CRN). -/
def decodeExternalId (extId : GoStr) : Option (GoStr × GoStr) :=
  let id := splitGo ':' krTail extId
  if id.length < 2 then none else some (id.getD 0 [], id.getD 1 [])

/-- `id[0]` of the `":keyRing:"` split of the stored id: the key ring id
recovered by Read (line 199) and Delete (line 233). -/
def decodedRing (extId : GoStr) : GoStr := (splitGo ':' krTail extId).getD 0 []

/-- `id[1]` of the `":keyRing:"` split of the stored id: the embedded
instance CRN recovered by Read (line 159) and Delete (line 209). -/
def decodedCrn (extId : GoStr) : GoStr := (splitGo ':' krTail extId).getD 1 []

/-- `crnData[len(crnData)-3]` for `crnData := strings.Split(crn, ":")`:
the instance id Read (line 162) and Delete (line 212) recover from the
embedded CRN. -/
def crnInstanceId (crn : GoStr) : GoStr :=
  (splitGo ':' [] crn).getD ((splitGo ':' [] crn).length - 3) []

/-- `resourceIBMKmsKeyRingRead` (lines 150-201), returning the outcome and
the ordered trace of remote calls.  Note that the length of the `":"`
split of the CRN is never checked before indexing at `length - 3`
(line 162), and that a `GetKeyRings` failure is cast to `*kp.Error`
unconditionally (line 185). -/
def resourceIBMKmsKeyRingRead (b : Backend) (d : ResourceData) :
    OpResult × List RemoteCall :=
  match b.keyManagementAPIErr with
  | some m => (.err d m, [])
  | none =>
    if (splitGo ':' krTail d.id).length < 2 then
      (.err d (gs "[ERROR] Incorrect ID " ++ d.id ++
        gs ": Id should be a combination of keyRingID:keyRing:InstanceCRN"), [])
    else
      if (splitGo ':' [] (decodedCrn d.id)).length < 3 then
        (.panic panicIndexMsg, [])
      else
        let instanceID := crnInstanceId (decodedCrn d.id)
        match b.resourceControllerErr with
        | some m => (.err d m, [])
        | none =>
          match b.getResourceInstance instanceID with
          | (none, _, _) =>
            (.err d (gs "[ERROR] Error retrieving resource instance"),
              [.getResourceInstance instanceID])
          | (some _, _, some _) =>
            (.err d (gs "[ERROR] Error retrieving resource instance"),
              [.getResourceInstance instanceID])
          | (some idata, _, none) =>
            match b.kmsEndpointURL d.endpoint_type idata.extensions with
            | .error m => (.err d m, [.getResourceInstance instanceID])
            | .ok url =>
              match b.getKeyRings url instanceID with
              | .error (.generic _) =>
                (.panic panicCastMsg,
                  [.getResourceInstance instanceID, .getKeyRings])
              | .error (.kp ke) =>
                if ke.statusCode = 404 ∨ ke.statusCode = 409 then
                  (.ok { d with id := [] },
                    [.getResourceInstance instanceID, .getKeyRings])
                else
                  (.err d (gs "[ERROR] Get Key Rings failed with error"),
                    [.getResourceInstance instanceID, .getKeyRings])
              | .ok _ =>
                (.ok { d with
                    instance_id := instanceID,
                    endpoint_type :=
                      if containsGo 'p' (gs "rivate") url ||
                          containsGo 'p' (gs "rivate") b.kpBaseURL then
                        gs "private"
                      else gs "public",
                    key_ring_id := decodedRing d.id },
                  [.getResourceInstance instanceID, .getKeyRings])

/-- `resourceIBMKmsKeyRingDelete` (lines 203-244).  Unlike Read, the
result of the `":keyRing:"` split is indexed at position 1 without a
length check (line 209), the `":"` split of the CRN is indexed at
`length - 3` without a length check (line 212), and a `DeleteKeyRing`
failure is cast to `*kp.Error` unconditionally (line 235). -/
def resourceIBMKmsKeyRingDelete (b : Backend) (d : ResourceData) :
    OpResult × List RemoteCall :=
  match b.keyManagementAPIErr with
  | some m => (.err d m, [])
  | none =>
    if (splitGo ':' krTail d.id).length < 2 then
      (.panic panicIndexMsg, [])
    else
      if (splitGo ':' [] (decodedCrn d.id)).length < 3 then
        (.panic panicIndexMsg, [])
      else
        let instanceID := crnInstanceId (decodedCrn d.id)
        match b.resourceControllerErr with
        | some m => (.err d m, [])
        | none =>
          match b.getResourceInstance instanceID with
          | (none, _, _) =>
            (.err d (gs "[ERROR] Error retrieving resource instance"),
              [.getResourceInstance instanceID])
          | (some _, _, some _) =>
            (.err d (gs "[ERROR] Error retrieving resource instance"),
              [.getResourceInstance instanceID])
          | (some idata, _, none) =>
            match b.kmsEndpointURL d.endpoint_type idata.extensions with
            | .error m => (.err d m, [.getResourceInstance instanceID])
            | .ok url =>
              match b.deleteKeyRing url instanceID (decodedRing d.id) with
              | none =>
                (.ok d,
                  [.getResourceInstance instanceID, .deleteKeyRing (decodedRing d.id)])
              | some (.generic _) =>
                (.panic panicCastMsg,
                  [.getResourceInstance instanceID, .deleteKeyRing (decodedRing d.id)])
              | some (.kp ke) =>
                if ke.statusCode = 404 ∨ ke.statusCode = 409 then
                  (.ok d,
                    [.getResourceInstance instanceID, .deleteKeyRing (decodedRing d.id)])
                else
                  (.err d (gs " failed to Destroy key ring with error"),
                    [.getResourceInstance instanceID, .deleteKeyRing (decodedRing d.id)])

/-- `resourceIBMKmsKeyRingCreate` (lines 72-148).  `instanceData.CRN` is
read on line 95, before the nil check of line 96, so a nil
`instanceData` panics.  The raw HTTP POST of lines 107-127 is issued
before the official create call; its response is discarded.  When the
follow-up listing lacks the requested ring id, `keyRing` stays the empty
string and the id is still set (line 145).  Create finishes by calling
Read on the updated data (line 147). -/
def resourceIBMKmsKeyRingCreate (b : Backend) (d : ResourceData) :
    OpResult × List RemoteCall :=
  match b.keyManagementAPIErr with
  | some m => (.err d m, [])
  | none =>
    let instanceID := crnShorten d.instance_id
    let keyRingID := d.key_ring_id
    match b.resourceControllerErr with
    | some m => (.err d m, [])
    | none =>
      match b.getResourceInstance instanceID with
      | (none, _, _) =>
        (.panic panicNilMsg, [.getResourceInstance instanceID])
      | (some _, _, some _) =>
        (.err d (gs "[ERROR] Error retrieving resource instance"),
          [.getResourceInstance instanceID])
      | (some idata, _, none) =>
        match b.kmsEndpointURL d.endpoint_type idata.extensions with
        | .error m => (.err d m, [.getResourceInstance instanceID])
        | .ok url =>
          let tmpUrl := url ++ gs "/api/v2/key_rings/" ++ keyRingID
          match b.newRequestErr tmpUrl with
          | some m =>
            (.err d (gs "FIX: could not create request: " ++ m),
              [.getResourceInstance instanceID])
          | none =>
            match b.bluemixToken with
            | .error m =>
              (.err d (gs "FIX: Could not retrieve access token: " ++ m),
                [.getResourceInstance instanceID])
            | .ok _ =>
              match b.doRequest tmpUrl with
              | some m =>
                (.err d (gs "FIX: could not execute request: " ++ m),
                  [.getResourceInstance instanceID, .rawPost tmpUrl])
              | none =>
                match b.createKeyRing url instanceID keyRingID with
                | some _ =>
                  (.err d (gs "[ERROR] Error while creating key ring"),
                    [.getResourceInstance instanceID, .rawPost tmpUrl,
                      .createKeyRing keyRingID])
                | none =>
                  match b.getKeyRings url instanceID with
                  | .error _ =>
                    (.err d (gs "[ERROR] Error while fetching key ring"),
                      [.getResourceInstance instanceID, .rawPost tmpUrl,
                        .createKeyRing keyRingID, .getKeyRings])
                  | .ok rings =>
                    let keyRing := findRing rings keyRingID
                    match idata.crn with
                    | none =>
                      (.panic panicNilMsg,
                        [.getResourceInstance instanceID, .rawPost tmpUrl,
                          .createKeyRing keyRingID, .getKeyRings])
                    | some crn =>
                      let res :=
                        resourceIBMKmsKeyRingRead b
                          { d with id := keyRing ++ krSep ++ crn }
                      (res.1,
                        [.getResourceInstance instanceID, .rawPost tmpUrl,
                          .createKeyRing keyRingID, .getKeyRings] ++ res.2)

/-- Join a list of parts with a separator: left inverse of `splitGo`. -/
def joinGo (sep : List Char) : List (List Char) → List Char
  | [] => []
  | [x] => x
  | x :: xs => x ++ sep ++ joinGo sep xs

/-- The instance CRN of the end-to-end scenario of the specification. -/
def scenarioCRN : GoStr := gs "crn:v1:bluemix:public:kms:us-south:a/abc:123::"

/-- A public KMS endpoint URL used by the concrete backends. -/
def pubURL : GoStr := gs "https://us-south.kms.cloud.ibm.com"

/-- A fully healthy backend: the metadata fetch answers with the scenario
CRN, endpoint resolution yields the public URL, the raw POST and the
create call succeed, and the listing contains the ring "finance-keys". -/
def bHappy : Backend :=
  { keyManagementAPIErr := none
    kpBaseURL := []
    resourceControllerErr := none
    getResourceInstance := fun _ => (some ⟨some scenarioCRN, []⟩, [], none)
    kmsEndpointURL := fun _ _ => .ok pubURL
    newRequestErr := fun _ => none
    bluemixToken := .ok (gs "token")
    doRequest := fun _ => none
    createKeyRing := fun _ _ _ => none
    getKeyRings := fun _ _ => .ok [gs "finance-keys"]
    deleteKeyRing := fun _ _ _ => none }

/-- Like `bHappy`, but the follow-up listing does not contain the
requested ring id. -/
def bMissing : Backend :=
  { bHappy with getKeyRings := fun _ _ => .ok [gs "other-ring"] }

/-- Like `bHappy`, but the metadata fetch fails and returns no metadata
object at all (a nil `instanceData` together with a non-nil error). -/
def bNilMeta : Backend :=
  { bHappy with
    getResourceInstance := fun _ => (none, gs "404", some (.generic (gs "instance not found"))) }

/-- Like `bHappy`, but the metadata fetch fails while still returning a
(non-nil) metadata object. -/
def bMetaErr : Backend :=
  { bHappy with
    getResourceInstance :=
      fun _ => (some ⟨some scenarioCRN, []⟩, gs "500", some (.generic (gs "lookup failed"))) }

/-- Like `bHappy`, but the KMS list and delete calls fail with an error
whose dynamic type is not `*kp.Error`. -/
def bGeneric : Backend :=
  { bHappy with
    getKeyRings := fun _ _ => .error (.generic (gs "transport reset"))
    deleteKeyRing := fun _ _ _ => some (.generic (gs "transport reset")) }

/-- Like `bHappy`, but the KMS delete call fails with a `*kp.Error`
carrying status 404, and the list call with status 410. -/
def bKp404 : Backend :=
  { bHappy with
    deleteKeyRing := fun _ _ _ => some (.kp ⟨404⟩)
    getKeyRings := fun _ _ => .error (.kp ⟨410⟩) }

/-- Resource data for the end-to-end scenario: the instance reference is
the full scenario CRN and the requested ring id is "finance-keys". -/
def dScenario : ResourceData :=
  { id := []
    instance_id := scenarioCRN
    key_ring_id := gs "finance-keys"
    endpoint_type := [] }

/-- Resource data holding the external id produced by the scenario. -/
def dRing : ResourceData :=
  { id := encodeExternalId (gs "finance-keys") scenarioCRN
    instance_id := gs "123"
    key_ring_id := gs "finance-keys"
    endpoint_type := gs "public" }

/-- Resource data holding an external id without the ":keyRing:"
separator. -/
def dBadId : ResourceData :=
  { dRing with id := gs "bad-id-no-separator" }

/-- Resource data holding an external id whose embedded CRN has a single
colon-delimited segment. -/
def dShortCrn : ResourceData :=
  { dRing with id := gs "finance-keys:keyRing:abc" }

theorem splitGoF_fuel (h : Char) (t : List Char) :
    ∀ (n m : Nat) (s : List Char), s.length ≤ n → s.length ≤ m →
      splitGoF h t n s = splitGoF h t m s := by
  intro n
  induction n with
  | zero =>
    intro m s hn _
    have hs : s = [] := List.eq_nil_of_length_eq_zero (Nat.le_antisymm hn (Nat.zero_le _))
    subst hs
    cases m <;> rfl
  | succ n ih =>
    intro m s hn hm
    cases s with
    | nil => cases m <;> rfl
    | cons c rest =>
      cases m with
      | zero => simp at hm
      | succ m =>
        have hrn : rest.length ≤ n := by simp at hn; omega
        have hrm : rest.length ≤ m := by simp at hm; omega
        have hdn : (rest.drop t.length).length ≤ n := by
          simp [List.length_drop]; omega
        have hdm : (rest.drop t.length).length ≤ m := by
          simp [List.length_drop]; omega
        simp only [splitGoF]
        by_cases hp : (h :: t).isPrefixOf (c :: rest)
        · simp only [if_pos hp, ih m (rest.drop t.length) hdn hdm]
        · simp only [if_neg hp, ih m rest hrn hrm]

theorem splitGo_cons (h : Char) (t : List Char) (c : Char) (rest : List Char) :
    splitGo h t (c :: rest) =
      if (h :: t).isPrefixOf (c :: rest) then
        [] :: splitGo h t (rest.drop t.length)
      else
        match splitGo h t rest with
        | [] => [[c]]
        | r :: rs => (c :: r) :: rs := by
  show splitGoF h t (c :: rest).length (c :: rest) = _
  simp only [List.length_cons, splitGoF]
  by_cases hp : (h :: t).isPrefixOf (c :: rest)
  · simp only [if_pos hp]
    rw [splitGoF_fuel h t rest.length (rest.drop t.length).length (rest.drop t.length)
      (by simp [List.length_drop]) (Nat.le_refl _)]
    rfl
  · simp only [if_neg hp]
    rfl

theorem splitGo_ne_nil (h : Char) (t : List Char) (s : List Char) :
    splitGo h t s ≠ [] := by
  suffices hF : ∀ (n : Nat) (s : List Char), splitGoF h t n s ≠ [] from hF s.length s
  intro n
  induction n with
  | zero => intro s; cases s <;> simp [splitGoF]
  | succ n ih =>
    intro s
    cases s with
    | nil => simp [splitGoF]
    | cons c rest =>
      simp only [splitGoF]
      split
      · simp
      · split <;> simp

theorem splitGo_exists_cons (h : Char) (t : List Char) (s : List Char) :
    ∃ r rs, splitGo h t s = r :: rs :=
  List.exists_cons_of_ne_nil (splitGo_ne_nil h t s)

theorem splitGo_length_pos (h : Char) (t : List Char) (s : List Char) :
    1 ≤ (splitGo h t s).length :=
  List.length_pos.mpr (splitGo_ne_nil h t s)

theorem splitGo_length_one (h : Char) (t : List Char) (s : List Char)
    (hlen : (splitGo h t s).length = 1) : splitGo h t s = [s] := by
  suffices hF : ∀ (n : Nat) (s : List Char), s.length ≤ n →
      (splitGoF h t n s).length = 1 → splitGoF h t n s = [s] from
    hF s.length s (Nat.le_refl _) hlen
  intro n
  induction n with
  | zero =>
    intro s hn _
    have hs : s = [] := List.eq_nil_of_length_eq_zero (Nat.le_antisymm hn (Nat.zero_le _))
    subst hs
    rfl
  | succ n ih =>
    intro s hn h1
    cases s with
    | nil => rfl
    | cons c rest =>
      have hrn : rest.length ≤ n := by simp at hn; omega
      simp only [splitGoF] at h1 ⊢
      by_cases hp : (h :: t).isPrefixOf (c :: rest)
      · exfalso
        rw [if_pos hp] at h1
        simp only [List.length_cons, Nat.add_eq_zero, Nat.succ_inj] at h1
        have hne : splitGoF h t n (rest.drop t.length) ≠ [] := by
          have := splitGo_ne_nil h t (rest.drop t.length)
          rw [show splitGo h t (rest.drop t.length) =
            splitGoF h t (rest.drop t.length).length (rest.drop t.length) from rfl] at this
          rw [splitGoF_fuel h t n (rest.drop t.length).length (rest.drop t.length)
            (by simp [List.length_drop]; omega) (Nat.le_refl _)]
          exact this
        exact hne (List.eq_nil_of_length_eq_zero h1)
      · rw [if_neg hp] at h1 ⊢
        cases hr : splitGoF h t n rest with
        | nil =>
          exfalso
          have := splitGo_ne_nil h t rest
          rw [show splitGo h t rest = splitGoF h t rest.length rest from rfl,
            ← splitGoF_fuel h t n rest.length rest hrn (Nat.le_refl _)] at this
          exact this hr
        | cons r rs =>
          rw [hr] at h1
          simp only [List.length_cons, Nat.succ_inj] at h1
          have hrs : rs = [] := List.eq_nil_of_length_eq_zero h1
          subst hrs
          have : splitGoF h t n rest = [rest] := ih rest hrn (by rw [hr]; rfl)
          rw [hr] at this
          simp only [List.cons.injEq] at this
          rw [this.1]

theorem isPrefixOf_single (ch c : Char) (l : List Char) :
    [ch].isPrefixOf (c :: l) = (ch == c) := by
  simp [List.isPrefixOf]

theorem splitGo_append_sep (h : Char) (t : List Char) (k c : List Char)
    (hk : h ∉ k) :
    splitGo h t (k ++ ((h :: t) ++ c)) = k :: splitGo h t c := by
  induction k with
  | nil =>
    rw [List.nil_append, show (h :: t) ++ c = h :: (t ++ c) from rfl, splitGo_cons]
    have hp : (h :: t).isPrefixOf (h :: (t ++ c)) = true := by
      rw [List.isPrefixOf_iff_prefix]
      exact List.prefix_append (h :: t) c
    rw [if_pos hp, List.drop_left]
  | cons a k' ih =>
    have hak : h ≠ a := fun he => hk (by rw [he]; exact List.mem_cons_self a k')
    have hk' : h ∉ k' := fun hm => hk (List.mem_cons_of_mem a hm)
    rw [List.cons_append, splitGo_cons]
    have hnp : ¬((h :: t).isPrefixOf (a :: (k' ++ ((h :: t) ++ c))) = true) := by
      simp only [List.isPrefixOf, Bool.and_eq_true, beq_iff_eq]
      exact fun hab => hak hab.1
    rw [if_neg hnp, ih hk']

theorem joinGo_cons_cons (sep : List Char) (x y : List Char) (ys : List (List Char)) :
    joinGo sep (x :: y :: ys) = x ++ sep ++ joinGo sep (y :: ys) := rfl

theorem joinGo_splitGo (h : Char) (t : List Char) (s : List Char) :
    joinGo (h :: t) (splitGo h t s) = s := by
  suffices hF : ∀ (n : Nat) (s : List Char), s.length ≤ n →
      joinGo (h :: t) (splitGoF h t n s) = s from hF s.length s (Nat.le_refl _)
  intro n
  induction n with
  | zero =>
    intro s hn
    have hs : s = [] := List.eq_nil_of_length_eq_zero (Nat.le_antisymm hn (Nat.zero_le _))
    subst hs
    rfl
  | succ n ih =>
    intro s hn
    cases s with
    | nil => rfl
    | cons c rest =>
      have hrn : rest.length ≤ n := by simp at hn; omega
      have hdn : (rest.drop t.length).length ≤ n := by simp [List.length_drop]; omega
      simp only [splitGoF]
      by_cases hp : (h :: t).isPrefixOf (c :: rest) = true
      · rw [if_pos hp]
        obtain ⟨r, rs, hr⟩ :
            ∃ r rs, splitGoF h t n (rest.drop t.length) = r :: rs := by
          have hne : splitGoF h t n (rest.drop t.length) ≠ [] := by
            rw [splitGoF_fuel h t n (rest.drop t.length).length _ hdn (Nat.le_refl _)]
            exact splitGo_ne_nil h t (rest.drop t.length)
          exact List.exists_cons_of_ne_nil hne
        have hj : joinGo (h :: t) (splitGoF h t n (rest.drop t.length)) =
            rest.drop t.length := ih (rest.drop t.length) hdn
        rw [hr] at hj ⊢
        rw [joinGo_cons_cons, List.nil_append, hj]
        have hpre : (h :: t) <+: (c :: rest) := List.isPrefixOf_iff_prefix.mp hp
        have := List.prefix_iff_eq_append.mp hpre
        simpa using this
      · rw [if_neg hp]
        obtain ⟨r, rs, hr⟩ : ∃ r rs, splitGoF h t n rest = r :: rs := by
          have hne : splitGoF h t n rest ≠ [] := by
            rw [splitGoF_fuel h t n rest.length _ hrn (Nat.le_refl _)]
            exact splitGo_ne_nil h t rest
          exact List.exists_cons_of_ne_nil hne
        have hj : joinGo (h :: t) (splitGoF h t n rest) = rest := ih rest hrn
        rw [hr] at hj ⊢
        cases rs with
        | nil =>
          show c :: r = c :: rest
          rw [show joinGo (h :: t) [r] = r from rfl] at hj
          rw [hj]
        | cons y ys =>
          rw [joinGo_cons_cons] at hj
          show joinGo (h :: t) ((c :: r) :: y :: ys) = c :: rest
          rw [joinGo_cons_cons, ← hj]
          simp

theorem splitGo_single_append (ch : Char) (a b : List Char) :
    (splitGo ch [] (a ++ b)).length + 1 =
      (splitGo ch [] a).length + (splitGo ch [] b).length := by
  induction a with
  | nil =>
    show (splitGo ch [] b).length + 1 = (splitGoF ch [] 0 []).length + (splitGo ch [] b).length
    simp [splitGoF]
    omega
  | cons c a' ih =>
    rw [List.cons_append, splitGo_cons, splitGo_cons]
    simp only [isPrefixOf_single, List.length_nil, List.drop_zero]
    by_cases hc : ch = c
    · have hcb : (ch == c) = true := beq_iff_eq.mpr hc
      rw [if_pos hcb, if_pos hcb]
      simp only [List.length_cons]
      omega
    · have hcb : ¬((ch == c) = true) := by simp [hc]
      rw [if_neg hcb, if_neg hcb]
      obtain ⟨r, rs, hr⟩ := splitGo_exists_cons ch [] (a' ++ b)
      obtain ⟨r', rs', hr'⟩ := splitGo_exists_cons ch [] a'
      rw [hr, hr']
      rw [hr, hr'] at ih
      simp only [List.length_cons] at ih ⊢
      omega

theorem contains_krSep_segments (s : List Char)
    (hc : containsGo ':' krTail s = true) :
    3 ≤ (splitGo ':' [] s).length := by
  have h2 : 2 ≤ (splitGo ':' krTail s).length := by
    simpa [containsGo] using hc
  obtain ⟨p, ps, hp⟩ := splitGo_exists_cons ':' krTail s
  cases ps with
  | nil => rw [hp] at h2; simp at h2
  | cons q qs =>
    have hs : p ++ ((':' :: krTail) ++ joinGo (':' :: krTail) (q :: qs)) = s := by
      have hj := joinGo_splitGo ':' krTail s
      rw [hp, joinGo_cons_cons] at hj
      rw [← List.append_assoc]
      exact hj
    have e1 := splitGo_single_append ':' p
      ((':' :: krTail) ++ joinGo (':' :: krTail) (q :: qs))
    have e2 := splitGo_single_append ':' (':' :: krTail)
      (joinGo (':' :: krTail) (q :: qs))
    have hsep : (splitGo ':' [] (':' :: krTail)).length = 3 := by decide
    have hp1 := splitGo_length_pos ':' [] p
    have hp2 := splitGo_length_pos ':' [] (joinGo (':' :: krTail) (q :: qs))
    rw [← hs]
    omega

theorem valid_key_ring_id_no_colon (k : GoStr) (hk : validKeyRingID k = true) :
    ':' ∉ k := by
  intro hmem
  simp only [validKeyRingID, Bool.and_eq_true, List.all_eq_true] at hk
  have hc := hk.1.1 ':' hmem
  simp [isKeyRingChar, Char.isAlpha, Char.isUpper, Char.isLower, Char.isDigit] at hc

theorem findRing_mem (rings : List GoStr) (k : GoStr) (hm : k ∈ rings) :
    findRing rings k = k := by
  induction rings with
  | nil => simp at hm
  | cons r rs ih =>
    by_cases hr : r = k
    · simp [findRing, hr]
    · have hmem : k ∈ rs := by
        cases List.mem_cons.mp hm with
        | inl he => exact absurd he.symm hr
        | inr hm' => exact hm'
      simp [findRing, hr, ih hmem]

theorem findRing_not_mem (rings : List GoStr) (k : GoStr) (hm : k ∉ rings) :
    findRing rings k = [] := by
  induction rings with
  | nil => rfl
  | cons r rs ih =>
    have hr : ¬(r = k) := fun he => hm (by rw [he]; exact List.mem_cons_self k rs)
    have hm' : k ∉ rs := fun hmem => hm (List.mem_cons_of_mem r hmem)
    simp [findRing, hr, ih hm']

theorem not_contains_splitGo_self (h : Char) (t : List Char) (s : List Char)
    (hc : containsGo h t s = false) : splitGo h t s = [s] := by
  have h1 := splitGo_length_pos h t s
  have h2 : ¬(2 ≤ (splitGo h t s).length) := by
    simpa [containsGo] using hc
  exact splitGo_length_one h t s (by omega)

/-- Claim C1, counterexample: the round-trip fails as stated, because the
split on ":keyRing:" is performed on ALL occurrences (Go strings.Split),
not on the first occurrence only.  With the valid key ring id "ab" and
the CRN "a:keyRing:b" (three colon-delimited segments), decoding the
encoded identifier yields ("ab", "a"), not ("ab", "a:keyRing:b"). -/
theorem C1_counterexample :
    validKeyRingID (gs "ab") = true ∧
    3 ≤ (splitGo ':' [] (gs "a:keyRing:b")).length ∧
    decodeExternalId (encodeExternalId (gs "ab") (gs "a:keyRing:b")) =
      some (gs "ab", gs "a") ∧
    decodeExternalId (encodeExternalId (gs "ab") (gs "a:keyRing:b")) ≠
      some (gs "ab", gs "a:keyRing:b") := by
  refine ⟨by decide, by decide, by decide, by decide⟩

/-- Claim C1 (amended): for every key ring id accepted by the validator
regex and every CRN with at least 3 colon-delimited segments that does
not itself contain the substring ":keyRing:", decoding the encoded
identifier (the split on ":keyRing:" as performed by Read) yields back
exactly the pair (key ring id, CRN). -/
theorem C1_roundtrip (k crn : GoStr)
    (hk : validKeyRingID k = true)
    (hseg : 3 ≤ (splitGo ':' [] crn).length)
    (hnc : containsGo ':' krTail crn = false) :
    decodeExternalId (encodeExternalId k crn) = some (k, crn) := by
  have hks : splitGo ':' krTail (k ++ ((':' :: krTail) ++ crn)) =
      k :: splitGo ':' krTail crn :=
    splitGo_append_sep ':' krTail k crn (valid_key_ring_id_no_colon k hk)
  have hcrn : splitGo ':' krTail crn = [crn] :=
    not_contains_splitGo_self ':' krTail crn hnc
  rw [hcrn] at hks
  show decodeExternalId (k ++ krSep ++ crn) = some (k, crn)
  rw [show k ++ krSep ++ crn = k ++ ((':' :: krTail) ++ crn) from
    List.append_assoc k krSep crn]
  unfold decodeExternalId
  rw [hks]
  rfl

/-- Witness for `C1_roundtrip` at the scenario values. -/
theorem C1_roundtrip_witness :
    decodeExternalId (encodeExternalId (gs "finance-keys") scenarioCRN) =
      some (gs "finance-keys", scenarioCRN) :=
  C1_roundtrip (gs "finance-keys") scenarioCRN (by decide) (by decide) (by decide)

/-- Claim C2: whenever Delete reaches the remote DeleteKeyRing call and
that call fails with a `*kp.Error` carrying a status code, a status of
404 (NotFound) or 409 (Conflict) makes Delete return success (nil
error), and any other status code is surfaced as an error. -/
theorem C2_delete_idempotent (b : Backend) (d : ResourceData) (status : Nat)
    (data : InstanceData) (resp : GoStr) (url : GoStr)
    (hkm : b.keyManagementAPIErr = none)
    (hrc : b.resourceControllerErr = none)
    (hid : 2 ≤ (splitGo ':' krTail d.id).length)
    (hcd : 3 ≤ (splitGo ':' [] (decodedCrn d.id)).length)
    (hgi : b.getResourceInstance (crnInstanceId (decodedCrn d.id)) =
      (some data, resp, none))
    (hurl : b.kmsEndpointURL d.endpoint_type data.extensions = .ok url)
    (hdel : b.deleteKeyRing url (crnInstanceId (decodedCrn d.id))
      (decodedRing d.id) = some (.kp ⟨status⟩)) :
    ((status = 404 ∨ status = 409) →
        (resourceIBMKmsKeyRingDelete b d).1 = .ok d) ∧
      (¬(status = 404 ∨ status = 409) →
        (resourceIBMKmsKeyRingDelete b d).1 =
          .err d (gs " failed to Destroy key ring with error")) := by
  have h1 : ¬((splitGo ':' krTail d.id).length < 2) := by omega
  have h2 : ¬((splitGo ':' [] (decodedCrn d.id)).length < 3) := by omega
  simp only [resourceIBMKmsKeyRingDelete, hkm, h1, h2, if_false, hrc, hgi,
    hurl, hdel]
  constructor
  · intro hs
    rw [if_pos hs]
  · intro hs
    rw [if_neg hs]

/-- Witness for `C2_delete_idempotent`: with the backend whose delete
call fails with status 404, Delete on the scenario id returns success. -/
theorem C2_delete_idempotent_witness :
    (resourceIBMKmsKeyRingDelete bKp404 dRing).1 = .ok dRing := by
  have h := C2_delete_idempotent bKp404 dRing 404 ⟨some scenarioCRN, []⟩ []
    pubURL rfl rfl (by decide) (by decide) rfl rfl rfl
  exact h.1 (Or.inl rfl)

/-- Claim C3, counterexample: with a backend where the remote create call
succeeds but the follow-up listing contains only "other-ring", Create
does NOT fail: it returns success with the external id
":keyRing:" ++ CRN (an empty key ring id encoded), not an error. -/
theorem C3_counterexample :
    (resourceIBMKmsKeyRingCreate bMissing dScenario).1 =
      .ok { id := gs ":keyRing:" ++ scenarioCRN
            instance_id := gs "123"
            key_ring_id := []
            endpoint_type := gs "public" } := by decide

/-- Claim C3 (amended): when the remote create call succeeds but the
follow-up listing contains no entry equal to the requested key ring id,
Create does not fail with a verification error: `keyRing` stays the
empty string, the external id ":keyRing:" ++ CRN is stored, and Create
returns whatever Read returns on that id. -/
theorem C3_no_verification (b : Backend) (d : ResourceData)
    (data : InstanceData) (resp crn url tok : GoStr) (rings : List GoStr)
    (hkm : b.keyManagementAPIErr = none)
    (hrc : b.resourceControllerErr = none)
    (hgi : b.getResourceInstance (crnShorten d.instance_id) =
      (some data, resp, none))
    (hcrn : data.crn = some crn)
    (hurl : b.kmsEndpointURL d.endpoint_type data.extensions = .ok url)
    (hreq : b.newRequestErr (url ++ gs "/api/v2/key_rings/" ++ d.key_ring_id) =
      none)
    (htok : b.bluemixToken = .ok tok)
    (hdo : b.doRequest (url ++ gs "/api/v2/key_rings/" ++ d.key_ring_id) = none)
    (hck : b.createKeyRing url (crnShorten d.instance_id) d.key_ring_id = none)
    (hgk : b.getKeyRings url (crnShorten d.instance_id) = .ok rings)
    (hmem : d.key_ring_id ∉ rings) :
    (resourceIBMKmsKeyRingCreate b d).1 =
      (resourceIBMKmsKeyRingRead b { d with id := krSep ++ crn }).1 := by
  simp only [resourceIBMKmsKeyRingCreate, hkm, hrc, hgi, hurl, hreq, htok,
    hdo, hck, hgk, hcrn, findRing_not_mem rings d.key_ring_id hmem,
    List.nil_append]

/-- Witness for `C3_no_verification` with the concrete missing-ring
backend. -/
theorem C3_no_verification_witness :
    (resourceIBMKmsKeyRingCreate bMissing dScenario).1 =
      (resourceIBMKmsKeyRingRead bMissing
        { dScenario with id := krSep ++ scenarioCRN }).1 :=
  C3_no_verification bMissing dScenario ⟨some scenarioCRN, []⟩ [] scenarioCRN
    pubURL (gs "token") [gs "other-ring"] rfl rfl rfl rfl rfl rfl rfl rfl rfl
    rfl (by decide)

/-- Claim C4, counterexample: Read on the well-formed scenario id with a
backend whose metadata lookup reports the instance gone returns an
error; it does not clear the id and report absence. -/
theorem C4_counterexample :
    (resourceIBMKmsKeyRingRead bNilMeta dRing).1 =
      .err dRing (gs "[ERROR] Error retrieving resource instance") := by decide

/-- Claim C4 (amended): for every well-formed external id, when the
instance-metadata lookup fails (a non-nil error or a nil metadata
object), Read surfaces the lookup failure as an error; the absent
outcome is reserved for a 404/409 failure of the later GetKeyRings
call. -/
theorem C4_read_metadata_error (b : Backend) (d : ResourceData)
    (dataOpt : Option InstanceData) (resp : GoStr) (errOpt : Option GoError)
    (hkm : b.keyManagementAPIErr = none)
    (hrc : b.resourceControllerErr = none)
    (hid : 2 ≤ (splitGo ':' krTail d.id).length)
    (hcd : 3 ≤ (splitGo ':' [] (decodedCrn d.id)).length)
    (hgi : b.getResourceInstance (crnInstanceId (decodedCrn d.id)) =
      (dataOpt, resp, errOpt))
    (hbad : errOpt.isSome ∨ dataOpt.isNone) :
    (resourceIBMKmsKeyRingRead b d).1 =
      .err d (gs "[ERROR] Error retrieving resource instance") := by
  have h1 : ¬((splitGo ':' krTail d.id).length < 2) := by omega
  have h2 : ¬((splitGo ':' [] (decodedCrn d.id)).length < 3) := by omega
  rcases dataOpt with _ | data
  · simp only [resourceIBMKmsKeyRingRead, hkm, h1, h2, if_false, hrc, hgi]
  · rcases errOpt with _ | e
    · simp at hbad
    · simp only [resourceIBMKmsKeyRingRead, hkm, h1, h2, if_false, hrc, hgi]

/-- Witness for `C4_read_metadata_error`: the lookup fails while still
returning a metadata object, and Read surfaces the error. -/
theorem C4_read_metadata_error_witness :
    (resourceIBMKmsKeyRingRead bMetaErr dRing).1 =
      .err dRing (gs "[ERROR] Error retrieving resource instance") :=
  C4_read_metadata_error bMetaErr dRing (some ⟨some scenarioCRN, []⟩)
    (gs "500") (some (.generic (gs "lookup failed"))) rfl rfl (by decide)
    (by decide) rfl (Or.inl rfl)

/-- Claim C5, counterexample: on the external id
"finance-keys:keyRing:abc", whose embedded CRN "abc" has a single
colon-delimited segment, Read and Delete do not fail with a malformed
identifier error: both panic with an index-out-of-range runtime error
(the index `len(crnData)-3` is negative). -/
theorem C5_counterexample :
    (resourceIBMKmsKeyRingRead bHappy dShortCrn).1 = .panic panicIndexMsg ∧
      (resourceIBMKmsKeyRingDelete bHappy dShortCrn).1 = .panic panicIndexMsg := by
  refine ⟨by decide, by decide⟩

/-- Claim C5 (amended): for every external id of the form
x ++ ":keyRing:" ++ crn where x contains no colon and crn has fewer
than 3 colon-delimited segments, Read and Delete panic with an
index-out-of-range runtime error (no malformed-identifier error is
produced). -/
theorem C5_short_crn_panics (b : Backend) (d : ResourceData) (x crn : GoStr)
    (hkm : b.keyManagementAPIErr = none)
    (hx : ':' ∉ x)
    (hseg : (splitGo ':' [] crn).length < 3)
    (hd : d.id = encodeExternalId x crn) :
    (resourceIBMKmsKeyRingRead b d).1 = .panic panicIndexMsg ∧
      (resourceIBMKmsKeyRingDelete b d).1 = .panic panicIndexMsg := by
  have hnc : containsGo ':' krTail crn = false := by
    cases hc : containsGo ':' krTail crn with
    | false => rfl
    | true =>
      have := contains_krSep_segments crn hc
      omega
  have hsplit : splitGo ':' krTail d.id = [x, crn] := by
    rw [hd, show encodeExternalId x crn = x ++ ((':' :: krTail) ++ crn) from
      List.append_assoc x krSep crn]
    rw [splitGo_append_sep ':' krTail x crn hx,
      not_contains_splitGo_self ':' krTail crn hnc]
  have hlen : ¬((splitGo ':' krTail d.id).length < 2) := by
    rw [hsplit]
    simp
  have hdc : decodedCrn d.id = crn := by
    unfold decodedCrn
    rw [hsplit]
    rfl
  constructor
  · simp only [resourceIBMKmsKeyRingRead, hkm, hlen, if_false, hdc,
      if_pos hseg]
  · simp only [resourceIBMKmsKeyRingDelete, hkm, hlen, if_false, hdc,
      if_pos hseg]

/-- Witness for `C5_short_crn_panics` at the concrete short-CRN id. -/
theorem C5_short_crn_panics_witness :
    (resourceIBMKmsKeyRingRead bHappy dShortCrn).1 = .panic panicIndexMsg ∧
      (resourceIBMKmsKeyRingDelete bHappy dShortCrn).1 = .panic panicIndexMsg :=
  C5_short_crn_panics bHappy dShortCrn (gs "finance-keys") (gs "abc") rfl
    (by decide) (by decide) (by decide)

/-- Claim C6, counterexample: Delete on the external id
"bad-id-no-separator" (no ":keyRing:" separator) does not return an
InvalidState error: it panics with an index-out-of-range runtime error
(id[1] on a one-element split), before issuing any remote call. -/
theorem C6_counterexample :
    (resourceIBMKmsKeyRingDelete bHappy dBadId).1 = .panic panicIndexMsg ∧
      (resourceIBMKmsKeyRingDelete bHappy dBadId).2 = [] := by
  refine ⟨by decide, by decide⟩

/-- Claim C6 (amended): for every external id that does not contain the
":keyRing:" separator, Delete panics with an index-out-of-range runtime
error before issuing any remote call, while Read (which does check the
split length) returns the incorrect-id error without issuing any remote
call. -/
theorem C6_delete_no_separator (b : Backend) (d : ResourceData)
    (hkm : b.keyManagementAPIErr = none)
    (hnc : containsGo ':' krTail d.id = false) :
    resourceIBMKmsKeyRingDelete b d = (.panic panicIndexMsg, []) ∧
      resourceIBMKmsKeyRingRead b d =
        (.err d (gs "[ERROR] Incorrect ID " ++ d.id ++
          gs ": Id should be a combination of keyRingID:keyRing:InstanceCRN"),
          []) := by
  have hs : splitGo ':' krTail d.id = [d.id] :=
    not_contains_splitGo_self ':' krTail d.id hnc
  have hlen : (splitGo ':' krTail d.id).length < 2 := by
    rw [hs]
    simp
  constructor
  · simp only [resourceIBMKmsKeyRingDelete, hkm, hlen, if_true]
  · simp only [resourceIBMKmsKeyRingRead, hkm, hlen, if_true]

/-- Witness for `C6_delete_no_separator` at "bad-id-no-separator". -/
theorem C6_delete_no_separator_witness :
    resourceIBMKmsKeyRingDelete bHappy dBadId = (.panic panicIndexMsg, []) ∧
      resourceIBMKmsKeyRingRead bHappy dBadId =
        (.err dBadId (gs "[ERROR] Incorrect ID " ++ dBadId.id ++
          gs ": Id should be a combination of keyRingID:keyRing:InstanceCRN"),
          []) :=
  C6_delete_no_separator bHappy dBadId rfl (by decide)

/-- Claim C7, counterexample: a fully successful Create issues SIX remote
requests, not two: a metadata fetch, the raw HTTP POST to the key-ring
endpoint ("Test fix" block, lines 107-127), the official create call,
a list call, and then (through the final Read of line 147) a second
metadata fetch and a second list call. -/
theorem C7_counterexample :
    (resourceIBMKmsKeyRingCreate bHappy dScenario).2 =
      [.getResourceInstance (gs "123"),
        .rawPost (pubURL ++ gs "/api/v2/key_rings/" ++ gs "finance-keys"),
        .createKeyRing (gs "finance-keys"), .getKeyRings,
        .getResourceInstance (gs "123"), .getKeyRings] ∧
      (resourceIBMKmsKeyRingCreate bHappy dScenario).2.count
        RemoteCall.getKeyRings = 2 := by
  refine ⟨by decide, by decide⟩

/-- Claim C7 (amended): every invocation of Create that runs to the end
without failing issues exactly six remote requests, in order: one
metadata fetch, one raw HTTP POST to the key-ring endpoint, one
create-key-ring call, one list-key-rings call, then (inside the final
Read) a second metadata fetch and a second list-key-rings call. -/
theorem C7_create_trace (b : Backend) (d : ResourceData)
    (data data2 : InstanceData) (resp resp2 crn url url2 tok : GoStr)
    (rings rings2 : List GoStr)
    (hvalid : validKeyRingID d.key_ring_id = true)
    (hkm : b.keyManagementAPIErr = none)
    (hrc : b.resourceControllerErr = none)
    (hgi : b.getResourceInstance (crnShorten d.instance_id) =
      (some data, resp, none))
    (hcrn : data.crn = some crn)
    (hurl : b.kmsEndpointURL d.endpoint_type data.extensions = .ok url)
    (hreq : b.newRequestErr (url ++ gs "/api/v2/key_rings/" ++ d.key_ring_id) =
      none)
    (htok : b.bluemixToken = .ok tok)
    (hdo : b.doRequest (url ++ gs "/api/v2/key_rings/" ++ d.key_ring_id) = none)
    (hck : b.createKeyRing url (crnShorten d.instance_id) d.key_ring_id = none)
    (hgk : b.getKeyRings url (crnShorten d.instance_id) = .ok rings)
    (hmem : d.key_ring_id ∈ rings)
    (hseg : 3 ≤ (splitGo ':' [] crn).length)
    (hnc : containsGo ':' krTail crn = false)
    (hgi2 : b.getResourceInstance (crnInstanceId crn) =
      (some data2, resp2, none))
    (hurl2 : b.kmsEndpointURL d.endpoint_type data2.extensions = .ok url2)
    (hgk2 : b.getKeyRings url2 (crnInstanceId crn) = .ok rings2) :
    (resourceIBMKmsKeyRingCreate b d).2 =
      [.getResourceInstance (crnShorten d.instance_id),
        .rawPost (url ++ gs "/api/v2/key_rings/" ++ d.key_ring_id),
        .createKeyRing d.key_ring_id, .getKeyRings,
        .getResourceInstance (crnInstanceId crn), .getKeyRings] := by
  have hfind : findRing rings d.key_ring_id = d.key_ring_id :=
    findRing_mem rings d.key_ring_id hmem
  have hsplit : splitGo ':' krTail (d.key_ring_id ++ krSep ++ crn) =
      [d.key_ring_id, crn] := by
    rw [show d.key_ring_id ++ krSep ++ crn =
      d.key_ring_id ++ ((':' :: krTail) ++ crn) from
      List.append_assoc d.key_ring_id krSep crn]
    rw [splitGo_append_sep ':' krTail d.key_ring_id crn
      (valid_key_ring_id_no_colon d.key_ring_id hvalid),
      not_contains_splitGo_self ':' krTail crn hnc]
  have hlen : ¬((splitGo ':' krTail (d.key_ring_id ++ krSep ++ crn)).length < 2) := by
    rw [hsplit]
    simp
  have hdc : decodedCrn (d.key_ring_id ++ krSep ++ crn) = crn := by
    unfold decodedCrn
    rw [hsplit]
    rfl
  have hseg3 : ¬((splitGo ':' []
      (decodedCrn (d.key_ring_id ++ krSep ++ crn))).length < 3) := by
    rw [hdc]
    omega
  have hseg3' : ¬((splitGo ':' [] crn).length < 3) := by omega
  simp only [resourceIBMKmsKeyRingCreate, hkm, hrc, hgi, hurl, hreq, htok,
    hdo, hck, hgk, hcrn, hfind, resourceIBMKmsKeyRingRead, hlen, if_false,
    hdc, hseg3, hseg3', hgi2, hurl2, hgk2, List.cons_append, List.nil_append]

/-- Witness for `C7_create_trace` at the happy scenario. -/
theorem C7_create_trace_witness :
    (resourceIBMKmsKeyRingCreate bHappy dScenario).2 =
      [.getResourceInstance (crnShorten dScenario.instance_id),
        .rawPost (pubURL ++ gs "/api/v2/key_rings/" ++ dScenario.key_ring_id),
        .createKeyRing dScenario.key_ring_id, .getKeyRings,
        .getResourceInstance (crnInstanceId scenarioCRN), .getKeyRings] :=
  C7_create_trace bHappy dScenario ⟨some scenarioCRN, []⟩
    ⟨some scenarioCRN, []⟩ [] [] scenarioCRN pubURL pubURL (gs "token")
    [gs "finance-keys"] [gs "finance-keys"] (by decide) rfl rfl rfl rfl rfl
    rfl rfl rfl rfl rfl (by decide) (by decide) (by decide) rfl rfl rfl

/-- Claim C8, counterexample: in the end-to-end scenario the external id
is exactly the claimed one, but the subsequent Read reports
instance_id "123" — the third-from-last colon-delimited segment of
"crn:v1:bluemix:public:kms:us-south:a/abc:123::" is "123", not "abc"
("abc" is not even a segment; "a/abc" is). -/
theorem C8_counterexample :
    (resourceIBMKmsKeyRingCreate bHappy dScenario).1 ≠
      .ok { id := gs "finance-keys:keyRing:crn:v1:bluemix:public:kms:us-south:a/abc:123::"
            instance_id := gs "abc"
            key_ring_id := gs "finance-keys"
            endpoint_type := gs "public" } ∧
      (splitGo ':' [] scenarioCRN).getD
        ((splitGo ':' [] scenarioCRN).length - 3) [] = gs "123" := by
  refine ⟨by decide, by decide⟩

/-- Claim C8 (amended): Create with key_ring_id "finance-keys" and
instance CRN "crn:v1:bluemix:public:kms:us-south:a/abc:123::" produces
the external id
"finance-keys:keyRing:crn:v1:bluemix:public:kms:us-south:a/abc:123::",
and the subsequent Read reports instance_id "123" (the third-from-last
colon-delimited segment of the CRN) and key_ring_id "finance-keys". -/
theorem C8_scenario :
    (resourceIBMKmsKeyRingCreate bHappy dScenario).1 =
      .ok { id := gs "finance-keys:keyRing:crn:v1:bluemix:public:kms:us-south:a/abc:123::"
            instance_id := gs "123"
            key_ring_id := gs "finance-keys"
            endpoint_type := gs "public" } := by decide

/-- Claim C9: evaluation at the failing input.  When the metadata fetch
returns no metadata object at all (nil `instanceData` with a non-nil
error), Create panics with a nil pointer dereference —
`instanceCRN := instanceData.CRN` on line 95 runs before the nil check
on line 96 — while Read and Delete, which check before dereferencing,
return an error. -/
theorem C9_create_nil_metadata_panics :
    (resourceIBMKmsKeyRingCreate bNilMeta dScenario).1 = .panic panicNilMsg ∧
      (resourceIBMKmsKeyRingRead bNilMeta dRing).1 =
        .err dRing (gs "[ERROR] Error retrieving resource instance") ∧
      (resourceIBMKmsKeyRingDelete bNilMeta dRing).1 =
        .err dRing (gs "[ERROR] Error retrieving resource instance") := by
  refine ⟨by decide, by decide, by decide⟩

/-- Claim C10: in Read and Delete a failing remote KMS call has its error
unconditionally cast to `*kp.Error` (lines 185 and 235); whenever the
error value has any other dynamic type, the operation panics with a
failed interface conversion instead of returning an error. -/
theorem C10_cast_panics (b : Backend) (d : ResourceData)
    (data : InstanceData) (resp url mg md : GoStr)
    (hkm : b.keyManagementAPIErr = none)
    (hrc : b.resourceControllerErr = none)
    (hid : 2 ≤ (splitGo ':' krTail d.id).length)
    (hcd : 3 ≤ (splitGo ':' [] (decodedCrn d.id)).length)
    (hgi : b.getResourceInstance (crnInstanceId (decodedCrn d.id)) =
      (some data, resp, none))
    (hurl : b.kmsEndpointURL d.endpoint_type data.extensions = .ok url)
    (hgk : b.getKeyRings url (crnInstanceId (decodedCrn d.id)) =
      .error (.generic mg))
    (hdel : b.deleteKeyRing url (crnInstanceId (decodedCrn d.id))
      (decodedRing d.id) = some (.generic md)) :
    (resourceIBMKmsKeyRingRead b d).1 = .panic panicCastMsg ∧
      (resourceIBMKmsKeyRingDelete b d).1 = .panic panicCastMsg := by
  have h1 : ¬((splitGo ':' krTail d.id).length < 2) := by omega
  have h2 : ¬((splitGo ':' [] (decodedCrn d.id)).length < 3) := by omega
  constructor
  · simp only [resourceIBMKmsKeyRingRead, hkm, h1, h2, if_false, hrc, hgi,
      hurl, hgk]
  · simp only [resourceIBMKmsKeyRingDelete, hkm, h1, h2, if_false, hrc, hgi,
      hurl, hdel]

/-- Witness for `C10_cast_panics` with the generic-error backend. -/
theorem C10_cast_panics_witness :
    (resourceIBMKmsKeyRingRead bGeneric dRing).1 = .panic panicCastMsg ∧
      (resourceIBMKmsKeyRingDelete bGeneric dRing).1 = .panic panicCastMsg :=
  C10_cast_panics bGeneric dRing ⟨some scenarioCRN, []⟩ [] pubURL
    (gs "transport reset") (gs "transport reset") rfl rfl (by decide)
    (by decide) rfl rfl rfl rfl
